import Mathlib

/-!
Verification of `src/maasserver/power_policy.py`: failure classification,
retry-delay policy and the per-node power-operation circuit breaker.

Modelling conventions:
* Python dicts keyed by node id become functions `Nat → Option _`
  (a missing key is `none`).
* The injected clock is an explicit `now : ℤ` argument; timestamps are
  integers (only their ordered arithmetic matters here).
* The mutating reads `should_allow` and `get_state` return the answer
  together with the updated breaker state.
-/

inductive FailureType where
  | CONFIGURATION
  | TRANSIENT
  | UNKNOWN
deriving DecidableEq, Repr

/-- Modelled from the spec: the repository source under scrutiny declares the
`RetryPolicy` dataclass fields only; the delay computation itself is not in
the provided source. The spec states
`delay(attempt) = min(initial_delay × backoff_factor^(attempt−1), max_delay)`.
Durations and the backoff factor are modelled as rationals. -/
structure RetryPolicy where
  max_attempts : ℕ
  initial_delay : ℚ
  max_delay : ℚ
  backoff_factor : ℚ
deriving DecidableEq, Repr

/-- Modelled from the spec: `min(initial_delay × backoff_factor^(attempt−1), max_delay)`. -/
def RetryPolicy.delay (p : RetryPolicy) (attempt : ℕ) : ℚ :=
  min (p.initial_delay * p.backoff_factor ^ (attempt - 1)) p.max_delay

def DEFAULT_RETRY_POLICY : RetryPolicy :=
  { max_attempts := 3
    initial_delay := 10
    max_delay := 120
    backoff_factor := 2 }

/-- Does `msg` start with `pat`? (character-list version of Python prefix test). -/
def listStartsWith : List Char → List Char → Bool
  | [], _ => true
  | _ :: _, [] => false
  | p :: ps, m :: ms => (p == m) && listStartsWith ps ms

/-- Python's `pat in msg` substring containment on character lists. -/
def listContains : List Char → List Char → Bool
  | [], pat => pat.isEmpty
  | c :: rest, pat => listStartsWith pat (c :: rest) || listContains rest pat

def config_patterns : List String :=
  [ "no rack controllers can access"
  , "no bmc is defined"
  , "unconfigured power type"
  , "unknown power type"
  , "power type not set"
  , "no power type"
  , "bmc is not accessible"
  , "cannot start commissioning" ]

def transient_patterns : List String :=
  [ "timeout"
  , "connection refused"
  , "connection reset"
  , "network unreachable"
  , "host unreachable"
  , "temporary failure"
  , "try again"
  , "temporarily unavailable" ]

/-- Lowercase a string into its character list (Python `str.lower()`). -/
def lowerData (s : String) : List Char :=
  s.data.map Char.toLower

/-- `classify_power_error`: lowercase the message, check the configuration
patterns first, then the transient patterns, else UNKNOWN. -/
def classify_power_error (msg : String) : FailureType :=
  let error_msg := lowerData msg
  if config_patterns.any (fun p => listContains error_msg p.data) then
    FailureType.CONFIGURATION
  else if transient_patterns.any (fun p => listContains error_msg p.data) then
    FailureType.TRANSIENT
  else
    FailureType.UNKNOWN

/-- The per-node circuit breaker. `failures` and `last_failure` model the two
Python dicts keyed by node id. -/
structure PowerOperationCircuitBreaker where
  failure_threshold : ℕ
  recovery_timeout : ℤ
  failures : ℕ → Option ℕ
  last_failure : ℕ → Option ℤ

namespace PowerOperationCircuitBreaker

/-- A freshly constructed breaker with the given parameters and empty dicts. -/
def init (failure_threshold : ℕ) (recovery_timeout : ℤ) : PowerOperationCircuitBreaker :=
  { failure_threshold := failure_threshold
    recovery_timeout := recovery_timeout
    failures := fun _ => none
    last_failure := fun _ => none }

/-- `record_failure`: a CONFIGURATION failure sets the count to the threshold,
any other failure increments it by one; the node's last-failure time is set
to `now` in both cases. -/
def record_failure (b : PowerOperationCircuitBreaker) (node : ℕ)
    (failure_type : FailureType) (now : ℤ) : PowerOperationCircuitBreaker :=
  let count :=
    if failure_type = FailureType.CONFIGURATION then b.failure_threshold
    else (b.failures node).getD 0 + 1
  { b with
      failures := fun m => if m = node then some count else b.failures m
      last_failure := fun m => if m = node then some now else b.last_failure m }

/-- `record_success`: drop both dict entries for the node. -/
def record_success (b : PowerOperationCircuitBreaker) (node : ℕ) :
    PowerOperationCircuitBreaker :=
  { b with
      failures := fun m => if m = node then none else b.failures m
      last_failure := fun m => if m = node then none else b.last_failure m }

/-- `should_allow`: allow when the node is untracked or under threshold; at or
above threshold, a passed recovery timeout resets the count to 0 and allows,
otherwise deny. Returns the answer with the (possibly updated) state. -/
def should_allow (b : PowerOperationCircuitBreaker) (node : ℕ) (now : ℤ) :
    Bool × PowerOperationCircuitBreaker :=
  match b.failures node with
  | none => (true, b)
  | some c =>
    if c < b.failure_threshold then (true, b)
    else if now - (b.last_failure node).getD 0 > b.recovery_timeout then
      (true, { b with failures := fun m => if m = node then some 0 else b.failures m })
    else (false, b)

/-- `get_state`: delegates to `should_allow` (inheriting its side effect);
"OPEN" when denied, "HALF_OPEN" when allowed with a positive count in the
post-`should_allow` state, "CLOSED" otherwise. -/
def get_state (b : PowerOperationCircuitBreaker) (node : ℕ) (now : ℤ) :
    String × PowerOperationCircuitBreaker :=
  let r := should_allow b node now
  if r.1 then
    if (r.2.failures node).getD 0 > 0 then ("HALF_OPEN", r.2)
    else ("CLOSED", r.2)
  else ("OPEN", r.2)

/-- `get_failure_count`: the dict value, defaulting to 0. -/
def get_failure_count (b : PowerOperationCircuitBreaker) (node : ℕ) : ℕ :=
  (b.failures node).getD 0

/-- `reset`: clear one node's entries, or every entry when no node is given. -/
def reset (b : PowerOperationCircuitBreaker) (node : Option ℕ) :
    PowerOperationCircuitBreaker :=
  match node with
  | some n =>
      { b with
          failures := fun m => if m = n then none else b.failures m
          last_failure := fun m => if m = n then none else b.last_failure m }
  | none =>
      { b with failures := fun _ => none, last_failure := fun _ => none }

end PowerOperationCircuitBreaker

/-! ## Lemmas about substring search -/

theorem listStartsWith_iff : ∀ pat msg : List Char,
    listStartsWith pat msg = true ↔ ∃ rest, msg = pat ++ rest
  | [], msg => by simp [listStartsWith]
  | _ :: _, [] => by simp [listStartsWith]
  | p :: ps, m :: ms => by
    rw [listStartsWith, Bool.and_eq_true, beq_iff_eq, listStartsWith_iff ps ms]
    constructor
    · rintro ⟨rfl, rest, rfl⟩
      exact ⟨rest, rfl⟩
    · rintro ⟨rest, h⟩
      injection h with h1 h2
      exact ⟨h1.symm, rest, h2⟩

theorem listContains_iff : ∀ msg pat : List Char,
    listContains msg pat = true ↔ ∃ pre post, msg = pre ++ pat ++ post
  | [], pat => by
    rw [listContains, List.isEmpty_iff]
    constructor
    · rintro rfl
      exact ⟨[], [], rfl⟩
    · rintro ⟨pre, post, h⟩
      rcases List.append_eq_nil.mp h.symm with ⟨h1, h2⟩
      exact (List.append_eq_nil.mp h1).2
  | c :: rest, pat => by
    rw [listContains, Bool.or_eq_true, listStartsWith_iff, listContains_iff rest pat]
    constructor
    · rintro (⟨r, hr⟩ | ⟨pre, post, h⟩)
      · exact ⟨[], r, by simpa using hr⟩
      · exact ⟨c :: pre, post, by simp [h]⟩
    · rintro ⟨pre, post, h⟩
      cases pre with
      | nil => exact Or.inl ⟨post, by simpa using h⟩
      | cons a as =>
        injection h with h1 h2
        exact Or.inr ⟨as, post, h2⟩

/-- Substring occurrence: `pat` occurs inside the character list `msg`
(Python `pat in msg`). -/
def OccursIn (pat : String) (msg : List Char) : Prop :=
  ∃ pre post, msg = pre ++ pat.data ++ post

theorem any_contains_iff (pats : List String) (m : List Char) :
    (pats.any fun p => listContains m p.data) = true ↔
      ∃ p ∈ pats, OccursIn p m := by
  rw [List.any_eq_true]
  constructor
  · rintro ⟨p, hp, hc⟩
    exact ⟨p, hp, (listContains_iff m p.data).mp hc⟩
  · rintro ⟨p, hp, hc⟩
    exact ⟨p, hp, (listContains_iff m p.data).mpr hc⟩

/-! ## Claim theorems: classifier and retry policy -/

/-- C1: for every retry policy and attempt ≥ 1, the delay is
`min(initial_delay * backoff_factor^(attempt-1), max_delay)`; for the default
policy (initial_delay 10 s, backoff_factor 2, max_delay 120 s) the delays at
attempts 1, 2, 3 are 10, 20, 40 seconds and attempt 5 is capped at 120 s. -/
theorem retry_delay_spec :
    (∀ (p : RetryPolicy) (attempt : ℕ), 1 ≤ attempt →
      p.delay attempt =
        min (p.initial_delay * p.backoff_factor ^ (attempt - 1)) p.max_delay) ∧
    DEFAULT_RETRY_POLICY.delay 1 = 10 ∧
    DEFAULT_RETRY_POLICY.delay 2 = 20 ∧
    DEFAULT_RETRY_POLICY.delay 3 = 40 ∧
    DEFAULT_RETRY_POLICY.delay 5 = 120 := by
  refine ⟨fun p a _ => rfl, ?_, ?_, ?_, ?_⟩ <;>
    norm_num [RetryPolicy.delay, DEFAULT_RETRY_POLICY]

/-- C1 witness: the general delay formula applied to the default policy at
attempt 5. -/
theorem retry_delay_spec_witness :
    DEFAULT_RETRY_POLICY.delay 5 =
      min (DEFAULT_RETRY_POLICY.initial_delay *
        DEFAULT_RETRY_POLICY.backoff_factor ^ (5 - 1)) DEFAULT_RETRY_POLICY.max_delay :=
  retry_delay_spec.1 DEFAULT_RETRY_POLICY 5 (by decide)

/-- C3: classification equals the reference algorithm: lowercase the message,
return CONFIGURATION when a configuration pattern occurs as a substring
(checked first), else TRANSIENT when a transient pattern occurs, else UNKNOWN;
in particular "timeout: unknown power type" is CONFIGURATION,
"Connection Refused by host" is TRANSIENT, and "disk full" is UNKNOWN. -/
theorem classify_power_error_spec :
    (∀ s : String,
      (classify_power_error s = FailureType.CONFIGURATION ↔
        ∃ p ∈ config_patterns, OccursIn p (lowerData s)) ∧
      (classify_power_error s = FailureType.TRANSIENT ↔
        (¬ ∃ p ∈ config_patterns, OccursIn p (lowerData s)) ∧
        ∃ p ∈ transient_patterns, OccursIn p (lowerData s)) ∧
      (classify_power_error s = FailureType.UNKNOWN ↔
        (¬ ∃ p ∈ config_patterns, OccursIn p (lowerData s)) ∧
        ¬ ∃ p ∈ transient_patterns, OccursIn p (lowerData s))) ∧
    classify_power_error "timeout: unknown power type" = FailureType.CONFIGURATION ∧
    classify_power_error "Connection Refused by host" = FailureType.TRANSIENT ∧
    classify_power_error "disk full" = FailureType.UNKNOWN := by
  refine ⟨fun s => ?_, by decide, by decide, by decide⟩
  rw [← any_contains_iff config_patterns (lowerData s),
    ← any_contains_iff transient_patterns (lowerData s)]
  by_cases h1 : (config_patterns.any fun p => listContains (lowerData s) p.data) = true
  · simp [classify_power_error, h1]
  · by_cases h2 : (transient_patterns.any fun p => listContains (lowerData s) p.data) = true
    · simp [classify_power_error, h1, h2]
    · simp [classify_power_error, h1, h2]

/-! ## Claim theorems: circuit breaker -/

/-- C4: a CONFIGURATION record_failure sets the node's count to exactly the
threshold and stamps the current time, so within the recovery window
should_allow is false and get_state is OPEN; any other failure type
increments the count by exactly 1. -/
theorem record_failure_spec (b : PowerOperationCircuitBreaker) (node : ℕ)
    (ft : FailureType) (now : ℤ) :
    (ft = FailureType.CONFIGURATION →
      (b.record_failure node ft now).get_failure_count node = b.failure_threshold ∧
      (b.record_failure node ft now).last_failure node = some now ∧
      ∀ now2 : ℤ, ¬ now2 - now > b.recovery_timeout →
        ((b.record_failure node ft now).should_allow node now2).1 = false ∧
        ((b.record_failure node ft now).get_state node now2).1 = "OPEN") ∧
    (ft ≠ FailureType.CONFIGURATION →
      (b.record_failure node ft now).get_failure_count node
        = b.get_failure_count node + 1 ∧
      (b.record_failure node ft now).last_failure node = some now) := by
  constructor
  · rintro rfl
    refine ⟨by simp [PowerOperationCircuitBreaker.record_failure,
      PowerOperationCircuitBreaker.get_failure_count],
      by simp [PowerOperationCircuitBreaker.record_failure], ?_⟩
    intro now2 h2
    have hsa : ((b.record_failure node FailureType.CONFIGURATION now).should_allow
        node now2).1 = false := by
      simp [PowerOperationCircuitBreaker.record_failure,
        PowerOperationCircuitBreaker.should_allow, h2]
    exact ⟨hsa, by simp [PowerOperationCircuitBreaker.get_state, hsa]⟩
  · intro hne
    exact ⟨by simp [PowerOperationCircuitBreaker.record_failure,
        PowerOperationCircuitBreaker.get_failure_count, hne],
      by simp [PowerOperationCircuitBreaker.record_failure]⟩

/-- C4 witness. -/
theorem record_failure_spec_witness :
    (((PowerOperationCircuitBreaker.init 3 300).record_failure 0
        FailureType.CONFIGURATION 5).should_allow 0 10).1 = false ∧
    ((PowerOperationCircuitBreaker.init 3 300).record_failure 0
        FailureType.TRANSIENT 5).get_failure_count 0
      = (PowerOperationCircuitBreaker.init 3 300).get_failure_count 0 + 1 :=
  ⟨(((record_failure_spec (PowerOperationCircuitBreaker.init 3 300) 0
      FailureType.CONFIGURATION 5).1 rfl).2.2 10 (by decide)).1,
   ((record_failure_spec (PowerOperationCircuitBreaker.init 3 300) 0
      FailureType.TRANSIENT 5).2 (by decide)).1⟩

/-- C5: should_allow. -/
theorem should_allow_spec (b : PowerOperationCircuitBreaker) (node : ℕ) (now : ℤ) :
    (b.failures node = none → b.should_allow node now = (true, b)) ∧
    (∀ c, b.failures node = some c → c < b.failure_threshold →
      b.should_allow node now = (true, b)) ∧
    (∀ c, b.failures node = some c → b.failure_threshold ≤ c →
      now - (b.last_failure node).getD 0 > b.recovery_timeout →
      (b.should_allow node now).1 = true ∧
      (b.should_allow node now).2.get_failure_count node = 0 ∧
      ((b.should_allow node now).2.get_state node now).1 = "CLOSED") ∧
    (∀ c, b.failures node = some c → b.failure_threshold ≤ c →
      ¬ now - (b.last_failure node).getD 0 > b.recovery_timeout →
      b.should_allow node now = (false, b)) ∧
    (((((PowerOperationCircuitBreaker.init 3 300).record_failure 1
        FailureType.TRANSIENT 0).record_failure 1 FailureType.TRANSIENT 1).record_failure 1
        FailureType.TRANSIENT 2).should_allow 1 100).1 = false := by
  refine ⟨?_, ?_, ?_, ?_, by decide⟩
  · intro h
    simp [PowerOperationCircuitBreaker.should_allow, h]
  · intro c hc hlt
    simp [PowerOperationCircuitBreaker.should_allow, hc, hlt]
  · intro c hc hle hgt
    have hnlt : ¬ c < b.failure_threshold := not_lt.mpr hle
    have hsa : b.should_allow node now =
        (true, { b with failures := fun m => if m = node then some 0 else b.failures m }) := by
      simp [PowerOperationCircuitBreaker.should_allow, hc, hnlt, hgt]
    rw [hsa]
    refine ⟨rfl, by simp [PowerOperationCircuitBreaker.get_failure_count], ?_⟩
    by_cases hth : 0 < b.failure_threshold
    · have hsa2 : PowerOperationCircuitBreaker.should_allow
          { b with failures := fun m => if m = node then some 0 else b.failures m } node now =
          (true, { b with failures := fun m => if m = node then some 0 else b.failures m }) := by
        simp [PowerOperationCircuitBreaker.should_allow, hth]
      simp [PowerOperationCircuitBreaker.get_state, hsa2]
    · have hth0 : b.failure_threshold = 0 := by omega
      simp [PowerOperationCircuitBreaker.get_state,
        PowerOperationCircuitBreaker.should_allow, hth0, hgt]
  · intro c hc hle hngt
    have hnlt : ¬ c < b.failure_threshold := not_lt.mpr hle
    simp [PowerOperationCircuitBreaker.should_allow, hc, hnlt, hngt]

/-- C5 witness. -/
theorem should_allow_spec_witness :
    ((((PowerOperationCircuitBreaker.init 3 300).record_failure 0
        FailureType.CONFIGURATION 5).should_allow 0 1000).1 = true ∧
      (((PowerOperationCircuitBreaker.init 3 300).record_failure 0
        FailureType.CONFIGURATION 5).should_allow 0 1000).2.get_failure_count 0 = 0 ∧
      ((((PowerOperationCircuitBreaker.init 3 300).record_failure 0
        FailureType.CONFIGURATION 5).should_allow 0 1000).2.get_state 0 1000).1 = "CLOSED") ∧
    ((PowerOperationCircuitBreaker.init 3 300).record_failure 0
        FailureType.CONFIGURATION 5).should_allow 0 10 =
      (false, (PowerOperationCircuitBreaker.init 3 300).record_failure 0
        FailureType.CONFIGURATION 5) :=
  ⟨(should_allow_spec ((PowerOperationCircuitBreaker.init 3 300).record_failure 0
      FailureType.CONFIGURATION 5) 0 1000).2.2.1 3 (by decide) (by decide) (by decide),
   (should_allow_spec ((PowerOperationCircuitBreaker.init 3 300).record_failure 0
      FailureType.CONFIGURATION 5) 0 10).2.2.2.1 3 (by decide) (by decide) (by decide)⟩

/-- C6: get_state. -/
theorem get_state_spec (b : PowerOperationCircuitBreaker) (node : ℕ) (now : ℤ) :
    ((b.get_state node now).1 = "OPEN" ↔ (b.should_allow node now).1 = false) ∧
    ((b.should_allow node now).1 = true →
      (b.get_state node now).1 =
        if 0 < ((b.should_allow node now).2.failures node).getD 0 then "HALF_OPEN"
        else "CLOSED") ∧
    (1 ≤ b.get_failure_count node → b.get_failure_count node < b.failure_threshold →
      (b.get_state node now).1 = "HALF_OPEN" ∧ (b.should_allow node now).1 = true) := by
  refine ⟨?_, ?_, ?_⟩
  · by_cases h : (b.should_allow node now).1 = true
    · simp only [PowerOperationCircuitBreaker.get_state, h, if_true]
      constructor
      · intro hs
        by_cases h0 : 0 < ((b.should_allow node now).2.failures node).getD 0 <;>
          simp [h0] at hs
      · intro hf
        exact absurd hf (by decide)
    · simp only [Bool.not_eq_true] at h
      simp [PowerOperationCircuitBreaker.get_state, h]
  · intro h
    simp only [PowerOperationCircuitBreaker.get_state, h, if_true]
    by_cases h0 : 0 < ((b.should_allow node now).2.failures node).getD 0 <;> simp [h0]
  · intro h1 hlt
    have hc : ∃ c, b.failures node = some c ∧ 0 < c := by
      cases hf : b.failures node with
      | none =>
        rw [PowerOperationCircuitBreaker.get_failure_count, hf] at h1
        simp at h1
      | some c =>
        rw [PowerOperationCircuitBreaker.get_failure_count, hf] at h1
        exact ⟨c, rfl, by simpa using h1⟩
    obtain ⟨c, hf, hcpos⟩ := hc
    have hclt : c < b.failure_threshold := by
      rw [PowerOperationCircuitBreaker.get_failure_count, hf] at hlt
      simpa using hlt
    have hsa : b.should_allow node now = (true, b) := by
      simp [PowerOperationCircuitBreaker.should_allow, hf, hclt]
    refine ⟨?_, by rw [hsa]⟩
    simp [PowerOperationCircuitBreaker.get_state, hsa, hf, hcpos]

/-- C6 witness. -/
theorem get_state_spec_witness :
    (((PowerOperationCircuitBreaker.init 3 300).record_failure 0
      FailureType.TRANSIENT 5).get_state 0 6).1 = "HALF_OPEN" ∧
    (((PowerOperationCircuitBreaker.init 3 300).record_failure 0
      FailureType.TRANSIENT 5).should_allow 0 6).1 = true :=
  (get_state_spec ((PowerOperationCircuitBreaker.init 3 300).record_failure 0
    FailureType.TRANSIENT 5) 0 6).2.2 (by decide) (by decide)

/-- C7: record_success. -/
theorem record_success_spec (b : PowerOperationCircuitBreaker) (node : ℕ) (now : ℤ) :
    (b.record_success node).failures node = none ∧
    (b.record_success node).last_failure node = none ∧
    (b.record_success node).get_failure_count node = 0 ∧
    ((b.record_success node).should_allow node now).1 = true ∧
    ((b.record_success node).get_state node now).1 = "CLOSED" := by
  have hf : (b.record_success node).failures node = none := by
    simp [PowerOperationCircuitBreaker.record_success]
  have hsa : (b.record_success node).should_allow node now = (true, b.record_success node) := by
    simp [PowerOperationCircuitBreaker.should_allow, hf]
  refine ⟨hf, by simp [PowerOperationCircuitBreaker.record_success],
    by simp [PowerOperationCircuitBreaker.get_failure_count, hf],
    by rw [hsa], ?_⟩
  simp [PowerOperationCircuitBreaker.get_state, hsa, hf]

/-- C8: reset frame conditions. -/
theorem reset_spec (b : PowerOperationCircuitBreaker) (n : ℕ) (now : ℤ) :
    ((b.reset (some n)).failures n = none ∧
     (b.reset (some n)).last_failure n = none ∧
     (∀ m, m ≠ n → (b.reset (some n)).failures m = b.failures m ∧
       (b.reset (some n)).last_failure m = b.last_failure m)) ∧
    (∀ m, (b.reset none).get_failure_count m = 0 ∧
      ((b.reset none).get_state m now).1 = "CLOSED") := by
  refine ⟨⟨by simp [PowerOperationCircuitBreaker.reset],
    by simp [PowerOperationCircuitBreaker.reset], ?_⟩, ?_⟩
  · intro m hm
    simp [PowerOperationCircuitBreaker.reset, hm]
  · intro m
    have hf : (b.reset none).failures m = none := by
      simp [PowerOperationCircuitBreaker.reset]
    have hsa : (b.reset none).should_allow m now = (true, b.reset none) := by
      simp [PowerOperationCircuitBreaker.should_allow, hf]
    exact ⟨by simp [PowerOperationCircuitBreaker.get_failure_count, hf],
      by simp [PowerOperationCircuitBreaker.get_state, hsa, hf]⟩

/-- C8 witness. -/
theorem reset_spec_witness :
    (((PowerOperationCircuitBreaker.init 3 300).record_failure 0
        FailureType.TRANSIENT 5).reset (some 0)).failures 1 =
      ((PowerOperationCircuitBreaker.init 3 300).record_failure 0
        FailureType.TRANSIENT 5).failures 1 ∧
    (((PowerOperationCircuitBreaker.init 3 300).record_failure 0
        FailureType.TRANSIENT 5).reset (some 0)).last_failure 1 =
      ((PowerOperationCircuitBreaker.init 3 300).record_failure 0
        FailureType.TRANSIENT 5).last_failure 1 :=
  (reset_spec ((PowerOperationCircuitBreaker.init 3 300).record_failure 0
    FailureType.TRANSIENT 5) 0 5).1.2.2 1 (by decide)

/-- C9: untracked nodes behave as count 0, no error path. -/
theorem untracked_node_spec (b : PowerOperationCircuitBreaker) (node : ℕ) (now : ℤ)
    (h : b.failures node = none) :
    (b.should_allow node now).1 = true ∧
    b.get_failure_count node = 0 ∧
    (b.get_state node now).1 = "CLOSED" := by
  have hsa : b.should_allow node now = (true, b) := by
    simp [PowerOperationCircuitBreaker.should_allow, h]
  exact ⟨by rw [hsa], by simp [PowerOperationCircuitBreaker.get_failure_count, h],
    by simp [PowerOperationCircuitBreaker.get_state, hsa, h]⟩

/-- C9 witness. -/
theorem untracked_node_spec_witness :
    ((PowerOperationCircuitBreaker.init 3 300).should_allow 42 0).1 = true ∧
    (PowerOperationCircuitBreaker.init 3 300).get_failure_count 42 = 0 ∧
    ((PowerOperationCircuitBreaker.init 3 300).get_state 42 0).1 = "CLOSED" :=
  untracked_node_spec (PowerOperationCircuitBreaker.init 3 300) 42 0 rfl

/-- C10: get_state is a mutating read. -/
theorem get_state_mutating_spec (b : PowerOperationCircuitBreaker) (node : ℕ)
    (now : ℤ) (c : ℕ) (hc : b.failures node = some c)
    (hth : b.failure_threshold ≤ c)
    (ht : now - (b.last_failure node).getD 0 > b.recovery_timeout) :
    (b.get_state node now).1 = "CLOSED" ∧
    (b.get_state node now).2.get_failure_count node = 0 := by
  have hnlt : ¬ c < b.failure_threshold := not_lt.mpr hth
  have hsa : b.should_allow node now =
      (true, { b with failures := fun m => if m = node then some 0 else b.failures m }) := by
    simp [PowerOperationCircuitBreaker.should_allow, hc, hnlt, ht]
  constructor
  · simp [PowerOperationCircuitBreaker.get_state, hsa]
  · simp [PowerOperationCircuitBreaker.get_state, hsa,
      PowerOperationCircuitBreaker.get_failure_count]

/-- C10 witness. -/
theorem get_state_mutating_spec_witness :
    ((((PowerOperationCircuitBreaker.init 3 300).record_failure 0
        FailureType.CONFIGURATION 5).get_state 0 1000).1 = "CLOSED" ∧
      (((PowerOperationCircuitBreaker.init 3 300).record_failure 0
        FailureType.CONFIGURATION 5).get_state 0 1000).2.get_failure_count 0 = 0) :=
  get_state_mutating_spec ((PowerOperationCircuitBreaker.init 3 300).record_failure 0
    FailureType.CONFIGURATION 5) 0 1000 3 (by decide) (by decide) (by decide)

/-- A breaker with threshold 3 after four TRANSIENT failures on node 0:
its failure count for node 0 is 4, above the threshold. -/
def overCountBreaker : PowerOperationCircuitBreaker :=
  ((((PowerOperationCircuitBreaker.init 3 300).record_failure 0
    FailureType.TRANSIENT 0).record_failure 0 FailureType.TRANSIENT 1).record_failure 0
    FailureType.TRANSIENT 2).record_failure 0 FailureType.TRANSIENT 3

/-- C2 counterexample: a CONFIGURATION record_failure on a node whose count
already exceeds the threshold lowers the count from 4 to 3, so failure counts
are not monotonically non-decreasing across record_failure calls. -/
theorem record_failure_not_monotone_cex :
    overCountBreaker.get_failure_count 0 = 4 ∧
    (overCountBreaker.record_failure 0 FailureType.CONFIGURATION 4).get_failure_count 0 = 3 ∧
    (overCountBreaker.record_failure 0 FailureType.CONFIGURATION 4).get_failure_count 0 <
      overCountBreaker.get_failure_count 0 := by
  decide

/-- C2 amended: non-CONFIGURATION failures increment the count by exactly 1
(never decreasing it); CONFIGURATION failures set it to the threshold, which
can decrease a count already above the threshold; when the threshold is at
least 1 no record_failure call produces a zero count. -/
theorem record_failure_monotone_amended (b : PowerOperationCircuitBreaker)
    (node : ℕ) (ft : FailureType) (now : ℤ) :
    (ft ≠ FailureType.CONFIGURATION →
      (b.record_failure node ft now).get_failure_count node
        = b.get_failure_count node + 1) ∧
    (ft = FailureType.CONFIGURATION →
      (b.record_failure node ft now).get_failure_count node = b.failure_threshold) ∧
    (1 ≤ b.failure_threshold →
      1 ≤ (b.record_failure node ft now).get_failure_count node) := by
  refine ⟨?_, ?_, ?_⟩
  · intro hne
    simp [PowerOperationCircuitBreaker.record_failure,
      PowerOperationCircuitBreaker.get_failure_count, hne]
  · rintro rfl
    simp [PowerOperationCircuitBreaker.record_failure,
      PowerOperationCircuitBreaker.get_failure_count]
  · intro hth
    by_cases hft : ft = FailureType.CONFIGURATION
    · subst hft
      simpa [PowerOperationCircuitBreaker.record_failure,
        PowerOperationCircuitBreaker.get_failure_count] using hth
    · simp [PowerOperationCircuitBreaker.record_failure,
        PowerOperationCircuitBreaker.get_failure_count, hft]

/-- C2 amended witness. -/
theorem record_failure_monotone_amended_witness :
    ((PowerOperationCircuitBreaker.init 3 300).record_failure 7
        FailureType.TRANSIENT 0).get_failure_count 7
      = (PowerOperationCircuitBreaker.init 3 300).get_failure_count 7 + 1 ∧
    (overCountBreaker.record_failure 0 FailureType.CONFIGURATION 4).get_failure_count 0
      = overCountBreaker.failure_threshold :=
  ⟨(record_failure_monotone_amended (PowerOperationCircuitBreaker.init 3 300) 7
      FailureType.TRANSIENT 0).1 (by decide),
   (record_failure_monotone_amended overCountBreaker 0
      FailureType.CONFIGURATION 4).2.1 rfl⟩
